import Mathlib

/-!
Shallow embedding of `src/plot.py`:

  df = pd.read_csv("loss.csv", header=None, names=["Epoch", "Loss"])

  plt.figure(figsize=(8, 5))
  plt.plot(df["Epoch"], df["Loss"], label="Training Loss")
  plt.xlabel("Epoche")
  plt.ylabel("Loss (Cross-Entropy)")
  plt.title("Loss-Verlauf des Trainings")
  plt.legend()
  plt.grid(True)
  plt.savefig("my_plot.png")          -- plt.show() is commented out in the source

The script is a linear pipeline: load a headerless two-column CSV, build one
line-chart figure with fixed decorations, save it to a fixed filename.  The
embedding models the pandas CSV reader (comma splitting, blank-line skipping,
per-column numeric inference, missing-field NaN fill, empty-input error), the
figure as a record of data series and decorations, and the run as a function
from the input file's contents and the initial disk to an outcome (error,
final disk, trace of externally visible effects).
-/

deriving instance DecidableEq for Except

namespace Plot

/-- Split a character list at every occurrence of `sep`, keeping empty
segments; mirrors how the CSV reader tokenizes one line at commas
(`"".splitOn` conventions: the empty input yields one empty segment). -/
def splitCh (sep : Char) : List Char → List (List Char)
  | [] => [[]]
  | c :: cs =>
    if c = sep then [] :: splitCh sep cs
    else
      match splitCh sep cs with
      | [] => [[c]]
      | h :: t => (c :: h) :: t

/-- Comma-split a line into its raw fields. -/
def splitComma (s : String) : List String :=
  (splitCh ',' s.data).map (fun cs => String.mk cs)

/-- A decimal number `m / 10 ^ e`, the result of parsing a numeric CSV field. -/
structure DecNum where
  m : ℤ
  e : ℕ
  deriving DecidableEq, Repr

/-- Canonical form: strip factors of ten shared by mantissa and scale, so that
equal numeric values parsed from different spellings coincide. -/
def canon (m : ℤ) : ℕ → DecNum
  | 0 => ⟨m, 0⟩
  | e + 1 => if m % 10 = 0 then canon (m / 10) e else ⟨m, e + 1⟩

/-- The rational value of a parsed decimal number. -/
def DecNum.toRat (d : DecNum) : ℚ := (d.m : ℚ) / 10 ^ d.e

/-- Read a digit string as a natural number; `none` on any non-digit. -/
def digitsVal : List Char → Option ℕ :=
  List.foldl
    (fun acc c =>
      acc.bind (fun n => if c.isDigit then some (10 * n + (c.toNat - 48)) else none))
    (some 0)

/-- Numeric parsing of one CSV field, as the pandas reader's numeric
inference accepts it for plain decimals: optional sign, digits, optional
fractional part (`"1"`, `"2.5"`, `".5"`, `"-3."`); anything else is
non-numeric. -/
def parseNum (s : String) : Option DecNum :=
  let (neg, body) :=
    match s.data with
    | '-' :: r => (true, r)
    | '+' :: r => (false, r)
    | cs => (false, cs)
  let sgn : ℤ → ℤ := fun z => if neg then -z else z
  match splitCh '.' body with
  | [ip] =>
    if ip.isEmpty then none
    else (digitsVal ip).map (fun n => canon (sgn n) 0)
  | [ip, fp] =>
    if ip.isEmpty && fp.isEmpty then none
    else
      match digitsVal ip, digitsVal fp with
      | some i, some f => some (canon (sgn (i * 10 ^ fp.length + f)) fp.length)
      | _, _ => none
  | _ => none

/-- One cell of the loaded table: a number, a raw string (when the column
failed numeric inference), or the missing-value marker NaN. -/
inductive Cell where
  | num (v : DecNum)
  | str (s : String)
  | nan
  deriving DecidableEq, Repr

/-- Cell a raw field becomes in a column that passed numeric inference. -/
def numericCell : Option String → Cell
  | none => Cell.nan
  | some s =>
    match parseNum s with
    | some v => Cell.num v
    | none => Cell.nan

/-- Cell a raw field becomes in a column that failed numeric inference:
present fields are kept as strings, missing ones are still NaN. -/
def rawCell : Option String → Cell
  | none => Cell.nan
  | some s => Cell.str s

/-- A raw field does not block numeric inference: it is missing or parses. -/
def fieldOk : Option String → Bool
  | none => true
  | some s => (parseNum s).isSome

/-- Column construction with pandas dtype inference: if every present field
parses numerically the column is numeric, otherwise it keeps the strings. -/
def mkCol (raw : List (Option String)) : List Cell :=
  if raw.all fieldOk then raw.map numericCell else raw.map rawCell

/-- An empty field is a missing value (pandas default `na_values`). -/
def fieldOpt (s : String) : Option String :=
  if s = "" then none else some s

/-- One tokenized row, right-padded to the table width with missing values:
the pandas C engine fills a row that has fewer fields than expected with
NaN on the right (fields are assigned left to right). -/
def padRow (width : ℕ) (row : List String) : List (Option String) :=
  row.map fieldOpt ++ List.replicate (width - row.length) none

/-- Raw field of line `l` that lands in column `j` of a `width`-column
table, after comma splitting and right-padding. -/
def colField (width j : ℕ) (l : String) : Option String :=
  (padRow width (splitComma l)).getD j none

/-- The in-memory Sample Table produced by the Loader. -/
structure Table where
  colNames : List String
  epoch : List Cell
  loss : List Cell
  deriving DecidableEq, Repr

/-- A blank input line (skipped by the reader's default
`skip_blank_lines=True`). -/
def isBlank (l : String) : Bool := l == ""

/-- The pandas C engine on the non-blank lines: no data at all is
`EmptyDataError`; otherwise the expected field count (`width`) is set by
the first data row, a row with more fields than that raises `ParserError`
(default `on_bad_lines` is to error), and shorter rows are right-padded
with NaN.  With `names=["Epoch", "Loss"]`, a file wider than two columns
uses the leading extra columns as the index, so the named columns are the
trailing two (positions `width - 2` and `width - 1`); a one-column file
puts its single column in "Epoch" and leaves "Loss" all-NaN. -/
def readRows : List String → Except String Table
  | [] => Except.error "EmptyDataError: No columns to parse from file"
  | first :: rest =>
    let width := (splitComma first).length
    if (first :: rest).all (fun l => (splitComma l).length ≤ width) then
      Except.ok
        { colNames := ["Epoch", "Loss"]
          epoch := mkCol ((first :: rest).map (colField width (width - 2)))
          loss :=
            if width = 1 then mkCol ((first :: rest).map (fun _ => none))
            else mkCol ((first :: rest).map (colField width (width - 1))) }
    else Except.error "ParserError: Error tokenizing data"

/-- `pd.read_csv("loss.csv", header=None, names=["Epoch", "Loss"])` on the
file's lines: skip blank lines, then tokenize and build the two named
columns with per-column numeric inference. -/
def read_csv (lines : List String) : Except String Table :=
  readRows (lines.filter (fun l => !(isBlank l)))

/-- The in-memory figure built by the Renderer: the plotted data series and
the matplotlib decorations the script sets. -/
structure Figure where
  xdata : List Cell
  ydata : List Cell
  figsize : ℕ × ℕ
  xlabel : String
  ylabel : String
  title : String
  legend : List String
  grid : Bool
  deriving DecidableEq, Repr

/-- Lines 8-14 of the script: one `plt.plot` of Loss against Epoch plus the
fixed decorations.  The data series are taken from the table unchanged. -/
def render (t : Table) : Figure :=
  { xdata := t.epoch
    ydata := t.loss
    figsize := (8, 5)
    xlabel := "Epoche"
    ylabel := "Loss (Cross-Entropy)"
    title := "Loss-Verlauf des Trainings"
    legend := ["Training Loss"]
    grid := true }

/-- The 8-byte signature every PNG file starts with. -/
def pngSignature : List ℕ := [137, 80, 78, 71, 13, 10, 26, 10]

/-- Bytes of a string, for the abstract figure payload. -/
def strBytes (s : String) : List ℕ := s.data.map Char.toNat

/-- `plt.savefig` output, modelled abstractly: a PNG file is the PNG
signature followed by an encoding of the figure; the pixel-level encoder is
matplotlib internals outside this embedding, represented here by the
figure's text fields and series lengths.  Only the facts that the bytes are
a function of the figure and are never empty are used. -/
def pngBytes (fig : Figure) : List ℕ :=
  pngSignature ++ strBytes fig.title ++ strBytes fig.xlabel ++
    strBytes fig.ylabel ++ [fig.xdata.length, fig.ydata.length]

/-- Hardcoded input path of line 5. -/
def inputPath : String := "loss.csv"

/-- Hardcoded output path of line 16. -/
def outputPath : String := "my_plot.png"

/-- An externally visible effect of one run. -/
inductive Effect where
  | readFile (name : String)
  | writeFile (name : String) (bytes : List ℕ)
  | displayWindow
  deriving DecidableEq

/-- Outcome of one run of the script: the uncaught error if any, the final
disk (binary files by name), and the trace of externally visible effects. -/
structure RunOut where
  err : Option String
  disk : String → Option (List ℕ)
  effects : List Effect

/-- The whole script, run once: read `loss.csv` (`input` is its lines, or
`none` when the file is absent/unreadable), load it with `read_csv`, render
the figure, save it to `my_plot.png` overwriting whatever the disk held
there.  Any error propagates uncaught and stops the pipeline; `plt.show()`
is commented out, so no display effect ever occurs. -/
def run (input : Option (List String)) (disk0 : String → Option (List ℕ)) : RunOut :=
  match input with
  | none =>
    { err := some "FileNotFoundError: loss.csv"
      disk := disk0
      effects := [Effect.readFile inputPath] }
  | some lines =>
    match read_csv lines with
    | Except.error e =>
      { err := some e
        disk := disk0
        effects := [Effect.readFile inputPath] }
    | Except.ok df =>
      let fig := render df
      { err := none
        disk := fun n => if n = outputPath then some (pngBytes fig) else disk0 n
        effects := [Effect.readFile inputPath, Effect.writeFile outputPath (pngBytes fig)] }

/-- A line of the form `<epoch>,<loss>` with both fields numeric: exactly
two comma-separated fields, each accepted by numeric parsing. -/
def wellFormedLine (l : String) : Bool :=
  match splitComma l with
  | [a, b] => (parseNum a).isSome && (parseNum b).isSome
  | _ => false

/-! ### Helper lemmas -/

theorem wellFormedLine_spec (l : String) (h : wellFormedLine l = true) :
    ∃ a b, splitComma l = [a, b] ∧ (parseNum a).isSome ∧ (parseNum b).isSome := by
  unfold wellFormedLine at h
  rcases hs : splitComma l with _ | ⟨a, _ | ⟨b, _ | _⟩⟩ <;> rw [hs] at h
  · exact absurd h (by simp)
  · exact absurd h (by simp)
  · rw [Bool.and_eq_true] at h
    exact ⟨a, b, rfl, h.1, h.2⟩
  · exact absurd h (by simp)

theorem wellFormedLine_nonblank (l : String) (h : wellFormedLine l = true) :
    isBlank l = false := by
  by_contra hb
  have hl : l = "" := by
    simpa [isBlank] using eq_true_of_ne_false hb
  rw [hl] at h
  exact absurd h (by decide)

theorem colField_two_fst (l a b : String) (hs : splitComma l = [a, b]) :
    colField 2 0 l = fieldOpt a := by
  simp [colField, padRow, hs]

theorem colField_two_snd (l a b : String) (hs : splitComma l = [a, b]) :
    colField 2 1 l = fieldOpt b := by
  simp [colField, padRow, hs]

theorem numericCell_of_isSome (a : String) (h : (parseNum a).isSome) :
    ∃ v, parseNum a = some v ∧ numericCell (fieldOpt a) = Cell.num v := by
  have hne : a ≠ "" := by
    intro he
    rw [he] at h
    exact absurd h (by decide)
  obtain ⟨v, hv⟩ := Option.isSome_iff_exists.mp h
  refine ⟨v, hv, ?_⟩
  simp only [fieldOpt, if_neg hne, numericCell, hv]

theorem fieldOk_of_isSome (a : String) (h : (parseNum a).isSome) :
    fieldOk (fieldOpt a) = true := by
  unfold fieldOpt
  split
  · rfl
  · simpa [fieldOk] using h

theorem mkCol_of_all_ok (raw : List (Option String)) (h : ∀ o ∈ raw, fieldOk o = true) :
    mkCol raw = raw.map numericCell := by
  unfold mkCol
  rw [if_pos (List.all_eq_true.mpr h)]

theorem mkCol_length (raw : List (Option String)) : (mkCol raw).length = raw.length := by
  unfold mkCol
  split <;> simp

theorem filter_nonblank_eq_self (lines : List String)
    (hnb : ∀ l ∈ lines, isBlank l = false) :
    lines.filter (fun l => !(isBlank l)) = lines :=
  List.filter_eq_self.mpr (fun a ha => by simp [hnb a ha])

theorem readRows_cons_of_fits (first : String) (rest : List String)
    (hw : ∀ l ∈ first :: rest,
      (splitComma l).length ≤ (splitComma first).length) :
    readRows (first :: rest) = Except.ok
      { colNames := ["Epoch", "Loss"]
        epoch := mkCol ((first :: rest).map
          (colField (splitComma first).length ((splitComma first).length - 2)))
        loss :=
          if (splitComma first).length = 1 then
            mkCol ((first :: rest).map (fun _ => none))
          else
            mkCol ((first :: rest).map
              (colField (splitComma first).length
                ((splitComma first).length - 1))) } := by
  simp only [readRows]
  rw [if_pos (List.all_eq_true.mpr (fun l hl => decide_eq_true (hw l hl)))]

theorem readRows_ok_lengths (ds : List String) (t : Table)
    (h : readRows ds = Except.ok t) :
    t.epoch.length = ds.length ∧ t.loss.length = ds.length := by
  cases ds with
  | nil => exact absurd h (by simp [readRows])
  | cons first rest =>
    simp only [readRows] at h
    split at h
    · rw [Except.ok.injEq] at h
      subst h
      refine ⟨by simp [mkCol_length], ?_⟩
      split <;> simp [mkCol_length]
    · exact absurd h (by simp)

theorem canon_toRat (m : ℤ) (e : ℕ) : (canon m e).toRat = (m : ℚ) / 10 ^ e := by
  induction e generalizing m with
  | zero => simp [canon, DecNum.toRat]
  | succ e ih =>
    unfold canon
    split
    · rename_i h
      rw [ih]
      obtain ⟨k, rfl⟩ := Int.dvd_of_emod_eq_zero h
      rw [Int.mul_ediv_cancel_left k (by norm_num)]
      push_cast
      rw [pow_succ]
      field_simp
      ring
    · simp [DecNum.toRat]

theorem parseNum_example_int :
    (parseNum "1").map DecNum.toRat = some 1 := by
  rw [show parseNum "1" = some ⟨1, 0⟩ from by decide]
  norm_num [DecNum.toRat]

theorem parseNum_example_frac :
    (parseNum "2.5").map DecNum.toRat = some (5 / 2) := by
  rw [show parseNum "2.5" = some ⟨25, 1⟩ from by decide]
  norm_num [DecNum.toRat]

theorem parseNum_example_trailing_zero :
    (parseNum "2.50").map DecNum.toRat = some (5 / 2) := by
  rw [show parseNum "2.50" = some ⟨25, 1⟩ from by decide]
  norm_num [DecNum.toRat]

/-! ### Claim theorems -/

/-- C1: for every well-formed input file of N rows `<epoch>,<loss>` with no
header, the Loader produces a table with exactly N records, in file order,
columns named "Epoch" and "Loss", each field parsed to its numeric value. -/
theorem loader_wellformed_table (lines : List String)
    (hne : lines ≠ []) (hwf : ∀ l ∈ lines, wellFormedLine l = true) :
    ∃ t, read_csv lines = Except.ok t ∧
      t.colNames = ["Epoch", "Loss"] ∧
      t.epoch.length = lines.length ∧ t.loss.length = lines.length ∧
      t.epoch = lines.map (fun l => numericCell (colField 2 0 l)) ∧
      t.loss = lines.map (fun l => numericCell (colField 2 1 l)) ∧
      (∀ c ∈ t.epoch, ∃ v, c = Cell.num v) ∧
      (∀ c ∈ t.loss, ∃ v, c = Cell.num v) := by
  have hnb : ∀ l ∈ lines, isBlank l = false := fun l hl =>
    wellFormedLine_nonblank l (hwf l hl)
  cases lines with
  | nil => exact absurd rfl hne
  | cons first rest =>
    obtain ⟨a0, b0, hs0, _, _⟩ :=
      wellFormedLine_spec first (hwf first (List.mem_cons_self first rest))
    have hw0 : (splitComma first).length = 2 := by rw [hs0]; rfl
    have hfits : ∀ l ∈ first :: rest,
        (splitComma l).length ≤ (splitComma first).length := by
      intro l hl
      obtain ⟨a, b, hs, _, _⟩ := wellFormedLine_spec l (hwf l hl)
      rw [hs, hw0]
      simp
    have hread : read_csv (first :: rest) = readRows (first :: rest) := by
      unfold read_csv
      rw [filter_nonblank_eq_self _ hnb]
    have hok := readRows_cons_of_fits first rest hfits
    rw [hw0] at hok
    simp only [show (2 : ℕ) - 2 = 0 from rfl, show (2 : ℕ) - 1 = 1 from rfl] at hok
    rw [if_neg (by decide : ¬((2 : ℕ) = 1))] at hok
    have hok1 : ∀ o ∈ (first :: rest).map (colField 2 0), fieldOk o = true := by
      intro o ho
      rw [List.mem_map] at ho
      obtain ⟨l, hl, rfl⟩ := ho
      obtain ⟨a, b, hs, ha, _⟩ := wellFormedLine_spec l (hwf l hl)
      rw [colField_two_fst l a b hs]
      exact fieldOk_of_isSome a ha
    have hok2 : ∀ o ∈ (first :: rest).map (colField 2 1), fieldOk o = true := by
      intro o ho
      rw [List.mem_map] at ho
      obtain ⟨l, hl, rfl⟩ := ho
      obtain ⟨a, b, hs, _, hb⟩ := wellFormedLine_spec l (hwf l hl)
      rw [colField_two_snd l a b hs]
      exact fieldOk_of_isSome b hb
    have hm1 := mkCol_of_all_ok _ hok1
    have hm2 := mkCol_of_all_ok _ hok2
    refine ⟨_, hread.trans hok, rfl, ?_, ?_, ?_, ?_, ?_, ?_⟩
    · show (mkCol ((first :: rest).map (colField 2 0))).length = _
      rw [mkCol_length, List.length_map]
    · show (mkCol ((first :: rest).map (colField 2 1))).length = _
      rw [mkCol_length, List.length_map]
    · show mkCol ((first :: rest).map (colField 2 0)) = _
      rw [hm1, List.map_map]
      rfl
    · show mkCol ((first :: rest).map (colField 2 1)) = _
      rw [hm2, List.map_map]
      rfl
    · intro c hc
      replace hc : c ∈ mkCol ((first :: rest).map (colField 2 0)) := hc
      rw [hm1, List.mem_map] at hc
      obtain ⟨o, ho, rfl⟩ := hc
      rw [List.mem_map] at ho
      obtain ⟨l, hl, rfl⟩ := ho
      obtain ⟨a, b, hs, ha, _⟩ := wellFormedLine_spec l (hwf l hl)
      rw [colField_two_fst l a b hs]
      obtain ⟨v, _, hv⟩ := numericCell_of_isSome a ha
      exact ⟨v, hv⟩
    · intro c hc
      replace hc : c ∈ mkCol ((first :: rest).map (colField 2 1)) := hc
      rw [hm2, List.mem_map] at hc
      obtain ⟨o, ho, rfl⟩ := hc
      rw [List.mem_map] at ho
      obtain ⟨l, hl, rfl⟩ := ho
      obtain ⟨a, b, hs, _, hb⟩ := wellFormedLine_spec l (hwf l hl)
      rw [colField_two_snd l a b hs]
      obtain ⟨v, _, hv⟩ := numericCell_of_isSome b hb
      exact ⟨v, hv⟩

/-- C1 witness: the spec's example file `1,2.5` / `2,2.1` / `3,1.9`. -/
theorem loader_wellformed_table_witness :
    ((["1,2.5", "2,2.1", "3,1.9"] : List String) ≠ [] ∧
      ∀ l ∈ (["1,2.5", "2,2.1", "3,1.9"] : List String), wellFormedLine l = true) ∧
    (∃ t, read_csv ["1,2.5", "2,2.1", "3,1.9"] = Except.ok t ∧
      t.colNames = ["Epoch", "Loss"] ∧
      t.epoch.length = (["1,2.5", "2,2.1", "3,1.9"] : List String).length ∧
      t.loss.length = (["1,2.5", "2,2.1", "3,1.9"] : List String).length ∧
      t.epoch = (["1,2.5", "2,2.1", "3,1.9"] : List String).map
        (fun l => numericCell (colField 2 0 l)) ∧
      t.loss = (["1,2.5", "2,2.1", "3,1.9"] : List String).map
        (fun l => numericCell (colField 2 1 l)) ∧
      (∀ c ∈ t.epoch, ∃ v, c = Cell.num v) ∧
      (∀ c ∈ t.loss, ∃ v, c = Cell.num v)) ∧
    read_csv ["1,2.5", "2,2.1", "3,1.9"] = Except.ok
      { colNames := ["Epoch", "Loss"]
        epoch := [Cell.num ⟨1, 0⟩, Cell.num ⟨2, 0⟩, Cell.num ⟨3, 0⟩]
        loss := [Cell.num ⟨25, 1⟩, Cell.num ⟨21, 1⟩, Cell.num ⟨19, 1⟩] } :=
  ⟨⟨by decide, by decide⟩,
    loader_wellformed_table ["1,2.5", "2,2.1", "3,1.9"] (by decide) (by decide),
    by decide⟩

/-- C2: the rendered chart's x-series is the table's Epoch column and its
y-series is the Loss column, element by element, in the same order; the
Renderer neither reorders, sorts, nor deduplicates. -/
theorem renderer_series_eq_columns (t : Table) :
    (render t).xdata = t.epoch ∧ (render t).ydata = t.loss :=
  ⟨rfl, rfl⟩

/-- C6: the rendered figure carries exactly the fixed decorations - x-label
"Epoche", y-label "Loss (Cross-Entropy)", title "Loss-Verlauf des
Trainings", single legend entry "Training Loss", grid on, figure size
8 by 5 - independently of the input table. -/
theorem renderer_fixed_decorations (t : Table) :
    (render t).xlabel = "Epoche" ∧
    (render t).ylabel = "Loss (Cross-Entropy)" ∧
    (render t).title = "Loss-Verlauf des Trainings" ∧
    (render t).legend = ["Training Loss"] ∧
    (render t).grid = true ∧
    (render t).figsize = (8, 5) :=
  ⟨rfl, rfl, rfl, rfl, rfl, rfl⟩

/-- C7: when `loss.csv` is absent or unreadable the run fails with an
uncaught fatal error, the disk is unchanged (no output image is written),
and the only effect is the attempted read. -/
theorem missing_input_fatal_no_output (d : String → Option (List ℕ)) :
    (run none d).err = some "FileNotFoundError: loss.csv" ∧
    (run none d).disk = d ∧
    (run none d).effects = [Effect.readFile inputPath] :=
  ⟨rfl, rfl, rfl⟩

/-- C8: no run ever shows an interactive display window, and the externally
visible effects are at most the read of `loss.csv` and the write of
`my_plot.png`. -/
theorem no_display_only_read_write (input : Option (List String))
    (d : String → Option (List ℕ)) :
    ((run input d).effects.contains Effect.displayWindow) = false ∧
    ((run input d).effects = [Effect.readFile inputPath] ∨
      ∃ b, (run input d).effects = [Effect.readFile inputPath,
        Effect.writeFile outputPath b]) := by
  match input with
  | none => exact ⟨rfl, Or.inl rfl⟩
  | some lines =>
    cases hr : read_csv lines with
    | error e =>
      simp only [run, hr]
      exact ⟨rfl, Or.inl trivial⟩
    | ok df =>
      simp only [run, hr]
      exact ⟨rfl, Or.inr ⟨_, rfl⟩⟩

/-- C4: an input file with no data (empty, or only blank lines) makes the
Loader fail with pandas' EmptyDataError; the disk is unchanged (no blank
chart is written) and the only effect is the read. -/
theorem empty_input_fails (lines : List String) (d : String → Option (List ℕ))
    (h : ∀ l ∈ lines, isBlank l = true) :
    (run (some lines) d).err =
      some "EmptyDataError: No columns to parse from file" ∧
    (run (some lines) d).disk = d ∧
    (run (some lines) d).effects = [Effect.readFile inputPath] := by
  have hf : lines.filter (fun x => !(isBlank x)) = [] :=
    List.filter_eq_nil_iff.mpr (fun a ha => by simp [h a ha])
  have hread : read_csv lines =
      Except.error "EmptyDataError: No columns to parse from file" := by
    unfold read_csv
    rw [hf]
    rfl
  refine ⟨?_, ?_, ?_⟩ <;> simp [run, hread]

/-- C4 witness: the empty file. -/
theorem empty_input_fails_witness :
    (∀ l ∈ ([] : List String), isBlank l = true) ∧
    ((run (some []) (fun _ => none)).err =
        some "EmptyDataError: No columns to parse from file" ∧
      (run (some []) (fun _ => none)).disk = (fun _ => none) ∧
      (run (some []) (fun _ => none)).effects = [Effect.readFile inputPath]) :=
  ⟨by decide, empty_input_fails [] (fun _ => none) (by decide)⟩

/-- C5: every successful run writes non-empty bytes to the single hardcoded
filename `my_plot.png`, overwriting whatever the disk held there, touching
no other file, and its write effect targets only that name. -/
theorem writer_fixed_output (lines : List String) (d : String → Option (List ℕ))
    (h : (run (some lines) d).err = none) :
    ∃ bytes, 0 < bytes.length ∧
      (run (some lines) d).disk outputPath = some bytes ∧
      (∀ n, n ≠ outputPath → (run (some lines) d).disk n = d n) ∧
      (run (some lines) d).effects =
        [Effect.readFile inputPath, Effect.writeFile outputPath bytes] := by
  cases hr : read_csv lines with
  | error e =>
    rw [show (run (some lines) d).err = some e from by simp [run, hr]] at h
    exact absurd h (by simp)
  | ok df =>
    refine ⟨pngBytes (render df), ?_, ?_, ?_, ?_⟩
    · simp [pngBytes, pngSignature]
    · simp [run, hr]
    · intro n hn
      simp [run, hr, hn]
    · simp [run, hr]

/-- C5 witness: a valid 3-row input over a disk that already holds an old
`my_plot.png`, which the run overwrites. -/
theorem writer_fixed_output_witness :
    (run (some ["1,2.5", "2,2.1", "3,1.9"])
        (fun n => if n = "my_plot.png" then some [0] else none)).err = none ∧
    (∃ bytes, 0 < bytes.length ∧
      (run (some ["1,2.5", "2,2.1", "3,1.9"])
          (fun n => if n = "my_plot.png" then some [0] else none)).disk
        outputPath = some bytes ∧
      (∀ n, n ≠ outputPath →
        (run (some ["1,2.5", "2,2.1", "3,1.9"])
            (fun n => if n = "my_plot.png" then some [0] else none)).disk n =
          (fun n => if n = "my_plot.png" then some [0] else none) n) ∧
      (run (some ["1,2.5", "2,2.1", "3,1.9"])
          (fun n => if n = "my_plot.png" then some [0] else none)).effects =
        [Effect.readFile inputPath, Effect.writeFile outputPath bytes]) :=
  ⟨by decide, writer_fixed_output ["1,2.5", "2,2.1", "3,1.9"]
    (fun n => if n = "my_plot.png" then some [0] else none) (by decide)⟩

/-- C9: the record count of a loaded table equals the number of non-blank
input lines - blank lines are skipped and contribute no record. -/
theorem table_rows_eq_nonblank_lines (lines : List String) (t : Table)
    (h : read_csv lines = Except.ok t) :
    t.epoch.length = (lines.filter (fun l => !(isBlank l))).length ∧
    t.loss.length = (lines.filter (fun l => !(isBlank l))).length :=
  readRows_ok_lengths (lines.filter (fun l => !(isBlank l))) t h

/-- C9 witness: two data lines interleaved with two blank lines give a
two-record table. -/
theorem table_rows_eq_nonblank_lines_witness :
    read_csv ["1,2", "", "3,4", ""] = Except.ok
      { colNames := ["Epoch", "Loss"]
        epoch := [Cell.num ⟨1, 0⟩, Cell.num ⟨3, 0⟩]
        loss := [Cell.num ⟨2, 0⟩, Cell.num ⟨4, 0⟩] } ∧
    (([Cell.num ⟨1, 0⟩, Cell.num ⟨3, 0⟩] : List Cell).length =
        ((["1,2", "", "3,4", ""] : List String).filter
          (fun l => !(isBlank l))).length ∧
      ([Cell.num ⟨2, 0⟩, Cell.num ⟨4, 0⟩] : List Cell).length =
        ((["1,2", "", "3,4", ""] : List String).filter
          (fun l => !(isBlank l))).length) :=
  ⟨by decide, table_rows_eq_nonblank_lines ["1,2", "", "3,4", ""]
    { colNames := ["Epoch", "Loss"]
      epoch := [Cell.num ⟨1, 0⟩, Cell.num ⟨3, 0⟩]
      loss := [Cell.num ⟨2, 0⟩, Cell.num ⟨4, 0⟩] } (by decide)⟩

end Plot
